import Mathlib

/-!
Shallow embedding of the marathon-autoscale program
(src/autoscaler/autoscaler.py) and proofs about it.

The decision engine is `Autoscaler.autoscale` (lines 141-168 of the
source): an ordered if/elif chain over the metric value, the thresholds
and the two hysteresis counters `scale_up` and `cool_down`.  The scaling
executor is `Autoscaler.scale_app` (lines 170-196).  The control loop is
`Autoscaler.run` (lines 262-307).

Modelling choices:
  - Python float thresholds, metric values and the autoscale multiplier
    become rationals (`ℚ`); the claims only concern non-NaN real values.
  - The hysteresis counters are natural numbers (they start at 0 and are
    only ever incremented or reset).  The scale-up / cool-down factors
    and the instance bounds are integers (`float(int)` in the source).
  - `sys.exit(1)` becomes the `CycleOutcome.fatal 1` outcome; `timer();
    continue` becomes `CycleOutcome.skipped`; a cycle that runs the
    decision engine becomes `CycleOutcome.completed`.
-/

/-- The pair of hysteresis counters `self.scale_up` / `self.cool_down`. -/
structure HState where
  scale_up : ℕ
  cool_down : ℕ
deriving Repr, DecidableEq

/-- The scaling decision taken by one evaluation of the decision engine:
`ScaleUp` / `ScaleDown` correspond to the `scale_app(True)` /
`scale_app(False)` calls, `NoAction` to the branches that make no call. -/
inductive Decision
  | NoAction
  | ScaleUp
  | ScaleDown
deriving Repr, DecidableEq

/-- The configuration fields of the `Autoscaler` object that the claims
depend on, fixed at process start by `parse_arguments`. -/
structure Config where
  trigger_mode : String
  autoscale_multiplier : ℚ
  max_instances : ℤ
  min_instances : ℤ
  scale_up_factor : ℤ
  cool_down_factor : ℤ
  marathon_app : String
deriving Repr, DecidableEq

/-- Which branch of the if/elif chain of `Autoscaler.autoscale`
(source lines 143-168) fires, in source order. -/
inductive Branch
  | withinBounds
  | scaleUpTrigger
  | scaleDownTrigger
  | scaleUpWait
  | scaleDownWait
  | fallback
deriving Repr, DecidableEq

/-- Branch selection of `Autoscaler.autoscale`: the guards of the
if/elif chain of source lines 143-168, evaluated in source order. -/
def autoscaleBranch (cfg : Config) (mn mx metric : ℚ) (s : HState) : Branch :=
  if mn ≤ metric ∧ metric ≤ mx then
    Branch.withinBounds
  else if metric > mx ∧ (s.scale_up : ℤ) ≥ cfg.scale_up_factor then
    Branch.scaleUpTrigger
  else if metric < mn ∧ (s.cool_down : ℤ) ≥ cfg.cool_down_factor then
    Branch.scaleDownTrigger
  else if metric > mx then
    Branch.scaleUpWait
  else if metric < mn then
    Branch.scaleDownWait
  else
    Branch.fallback

/-- `Autoscaler.autoscale` (source lines 141-168): the decision made and
the counters after the call.  Branch effects, per source branch:
line 145-146 reset both counters; line 149-150 call `scale_app(True)`
and reset `scale_up`; line 153-154 call `scale_app(False)` and reset
`cool_down`; line 156-157 increment `scale_up` and reset `cool_down`;
line 162-163 increment `cool_down` and reset `scale_up`; the trailing
`else` (line 168) only logs. -/
def autoscale (cfg : Config) (mn mx metric : ℚ) (s : HState) : Decision × HState :=
  match autoscaleBranch cfg mn mx metric s with
  | Branch.withinBounds => (Decision.NoAction, ⟨0, 0⟩)
  | Branch.scaleUpTrigger => (Decision.ScaleUp, ⟨0, s.cool_down⟩)
  | Branch.scaleDownTrigger => (Decision.ScaleDown, ⟨s.scale_up, 0⟩)
  | Branch.scaleUpWait => (Decision.NoAction, ⟨s.scale_up + 1, 0⟩)
  | Branch.scaleDownWait => (Decision.NoAction, ⟨0, s.cool_down + 1⟩)
  | Branch.fallback => (Decision.NoAction, s)

/-- Iterated decision-engine evaluations: fold `autoscale` over a list of
(min, max, metric) inputs, starting from state `s`. -/
def runAutoscale (cfg : Config) (inputs : List (ℚ × ℚ × ℚ)) (s : HState) : HState :=
  inputs.foldl (fun st i => (autoscale cfg i.1 i.2.1 i.2.2 st).2) s

/-- The spec's counter invariant: at most one of the two hysteresis
counters is non-zero. -/
def countersExclusive (s : HState) : Prop :=
  s.scale_up = 0 ∨ s.cool_down = 0

instance (s : HState) : Decidable (countersExclusive s) := by
  unfold countersExclusive; infer_instance

/-- One evaluation of the decision engine preserves the counter
invariant (shared helper). -/
theorem countersExclusive_step (cfg : Config) (mn mx v : ℚ) (s : HState)
    (h : countersExclusive s) : countersExclusive (autoscale cfg mn mx v s).2 := by
  unfold countersExclusive autoscale autoscaleBranch
  split_ifs
  all_goals first
    | exact Or.inl rfl
    | exact Or.inr rfl
    | exact h

/-- Folding the decision engine over any input list preserves the counter
invariant (shared helper). -/
theorem countersExclusive_runAutoscale (cfg : Config) (inputs : List (ℚ × ℚ × ℚ))
    (s : HState) (h : countersExclusive s) :
    countersExclusive (runAutoscale cfg inputs s) := by
  induction inputs generalizing s with
  | nil => exact h
  | cons i rest ih =>
      exact ih _ (countersExclusive_step cfg i.1 i.2.1 i.2.2 s h)

/-- The concrete configuration of the spec's scale-up scenario:
multiplier 1.5, max 10 instances, scale-up factor 3, trigger mode cpu. -/
def cfgScenario : Config :=
  { trigger_mode := "cpu"
    autoscale_multiplier := 3/2
    max_instances := 10
    min_instances := 1
    scale_up_factor := 3
    cool_down_factor := 3
    marathon_app := "/app" }

/-- Claim C1: the decision engine evaluates the five ordered, mutually
exclusive cases: within bounds resets both counters with NoAction;
above max with the factor reached gives ScaleUp and resets `scale_up`;
below min with the factor reached gives ScaleDown and resets
`cool_down`; above max otherwise increments `scale_up` and resets
`cool_down` with NoAction; below min otherwise increments `cool_down`
and resets `scale_up` with NoAction — acting takes precedence over
merely crossing. -/
theorem autoscale_five_cases (cfg : Config) (mn mx v : ℚ) (s : HState) :
    (mn ≤ v ∧ v ≤ mx →
      autoscale cfg mn mx v s = (Decision.NoAction, ⟨0, 0⟩)) ∧
    (¬(mn ≤ v ∧ v ≤ mx) → v > mx → (s.scale_up : ℤ) ≥ cfg.scale_up_factor →
      autoscale cfg mn mx v s = (Decision.ScaleUp, ⟨0, s.cool_down⟩)) ∧
    (¬(mn ≤ v ∧ v ≤ mx) → ¬(v > mx ∧ (s.scale_up : ℤ) ≥ cfg.scale_up_factor) →
      v < mn → (s.cool_down : ℤ) ≥ cfg.cool_down_factor →
      autoscale cfg mn mx v s = (Decision.ScaleDown, ⟨s.scale_up, 0⟩)) ∧
    (¬(mn ≤ v ∧ v ≤ mx) → ¬(v > mx ∧ (s.scale_up : ℤ) ≥ cfg.scale_up_factor) →
      ¬(v < mn ∧ (s.cool_down : ℤ) ≥ cfg.cool_down_factor) → v > mx →
      autoscale cfg mn mx v s = (Decision.NoAction, ⟨s.scale_up + 1, 0⟩)) ∧
    (¬(mn ≤ v ∧ v ≤ mx) → ¬(v > mx ∧ (s.scale_up : ℤ) ≥ cfg.scale_up_factor) →
      ¬(v < mn ∧ (s.cool_down : ℤ) ≥ cfg.cool_down_factor) → ¬(v > mx) → v < mn →
      autoscale cfg mn mx v s = (Decision.NoAction, ⟨0, s.cool_down + 1⟩)) := by
  refine ⟨?_, ?_, ?_, ?_, ?_⟩
  · intro h1
    simp only [autoscale, autoscaleBranch, if_pos h1]
  · intro h1 h2 h3
    simp only [autoscale, autoscaleBranch, if_neg h1, if_pos (And.intro h2 h3)]
  · intro h1 h2 h3 h4
    simp only [autoscale, autoscaleBranch, if_neg h1, if_neg h2,
      if_pos (And.intro h3 h4)]
  · intro h1 h2 h3 h4
    simp only [autoscale, autoscaleBranch, if_neg h1, if_neg h2, if_neg h3,
      if_pos h4]
  · intro h1 h2 h3 h4 h5
    simp only [autoscale, autoscaleBranch, if_neg h1, if_neg h2, if_neg h3,
      if_neg h4, if_pos h5]

/-- Witness for C1: concrete instances of the five cases under the
scenario configuration (thresholds 20 and 80, scale-up factor 3). -/
theorem autoscale_five_cases_witness :
    autoscale cfgScenario 20 80 50 ⟨2, 0⟩ = (Decision.NoAction, ⟨0, 0⟩) ∧
    autoscale cfgScenario 20 80 95 ⟨3, 0⟩ = (Decision.ScaleUp, ⟨0, 0⟩) ∧
    autoscale cfgScenario 20 80 5 ⟨0, 3⟩ = (Decision.ScaleDown, ⟨0, 0⟩) ∧
    autoscale cfgScenario 20 80 95 ⟨1, 0⟩ = (Decision.NoAction, ⟨2, 0⟩) ∧
    autoscale cfgScenario 20 80 5 ⟨0, 1⟩ = (Decision.NoAction, ⟨0, 2⟩) :=
  ⟨(autoscale_five_cases cfgScenario 20 80 50 ⟨2, 0⟩).1 (by norm_num),
   (autoscale_five_cases cfgScenario 20 80 95 ⟨3, 0⟩).2.1
     (by norm_num) (by norm_num) (by norm_num [cfgScenario]),
   (autoscale_five_cases cfgScenario 20 80 5 ⟨0, 3⟩).2.2.1
     (by norm_num) (by norm_num [cfgScenario]) (by norm_num) (by norm_num [cfgScenario]),
   (autoscale_five_cases cfgScenario 20 80 95 ⟨1, 0⟩).2.2.2.1
     (by norm_num) (by norm_num [cfgScenario]) (by norm_num) (by norm_num),
   (autoscale_five_cases cfgScenario 20 80 5 ⟨0, 1⟩).2.2.2.2
     (by norm_num) (by norm_num [cfgScenario]) (by norm_num [cfgScenario])
     (by norm_num) (by norm_num)⟩

/-- Claim C3: every evaluation of the decision engine preserves the
mutual-exclusion invariant on the counters, and every state reachable
from the initial state (both counters 0) by a sequence of evaluations
satisfies it, for all configurations. -/
theorem counters_mutually_exclusive :
    (∀ (cfg : Config) (mn mx v : ℚ) (s : HState), countersExclusive s →
      countersExclusive (autoscale cfg mn mx v s).2) ∧
    (∀ (cfg : Config) (inputs : List (ℚ × ℚ × ℚ)),
      countersExclusive (runAutoscale cfg inputs ⟨0, 0⟩)) :=
  ⟨fun cfg mn mx v s h => countersExclusive_step cfg mn mx v s h,
   fun cfg inputs => countersExclusive_runAutoscale cfg inputs ⟨0, 0⟩ (Or.inl rfl)⟩

/-- Witness for C3: the invariant holds after one concrete evaluation
from a state with a non-zero scale-up counter, and after a concrete
three-input run from the initial state. -/
theorem counters_mutually_exclusive_witness :
    countersExclusive (autoscale cfgScenario 20 80 95 ⟨2, 0⟩).2 ∧
    countersExclusive (runAutoscale cfgScenario
      [(20, 80, 95), (20, 80, 5), (20, 80, 50)] ⟨0, 0⟩) :=
  ⟨counters_mutually_exclusive.1 cfgScenario 20 80 95 ⟨2, 0⟩ (Or.inr rfl),
   counters_mutually_exclusive.2 cfgScenario [(20, 80, 95), (20, 80, 5), (20, 80, 50)]⟩

/-- Claim C9: for rational thresholds and metric values the three guard
regions cover every input, so the trailing fallback branch of the
decision engine (the final `else` that only logs) never fires: every
evaluation takes one of the five spec-listed branches. -/
theorem autoscale_fallback_unreachable (cfg : Config) (mn mx v : ℚ) (s : HState) :
    ((mn ≤ v ∧ v ≤ mx) ∨ v > mx ∨ v < mn) ∧
    (autoscaleBranch cfg mn mx v s = Branch.withinBounds ∨
     autoscaleBranch cfg mn mx v s = Branch.scaleUpTrigger ∨
     autoscaleBranch cfg mn mx v s = Branch.scaleDownTrigger ∨
     autoscaleBranch cfg mn mx v s = Branch.scaleUpWait ∨
     autoscaleBranch cfg mn mx v s = Branch.scaleDownWait) := by
  constructor
  · by_cases h1 : mn ≤ v
    · by_cases h2 : v ≤ mx
      · exact Or.inl ⟨h1, h2⟩
      · exact Or.inr (Or.inl (lt_of_not_le h2))
    · exact Or.inr (Or.inr (lt_of_not_le h1))
  · unfold autoscaleBranch
    split_ifs with h1 h2 h3 h4 h5
    · exact Or.inl rfl
    · exact Or.inr (Or.inl rfl)
    · exact Or.inr (Or.inr (Or.inl rfl))
    · exact Or.inr (Or.inr (Or.inr (Or.inl rfl)))
    · exact Or.inr (Or.inr (Or.inr (Or.inr rfl)))
    · exact absurd (And.intro (le_of_not_lt h5) (le_of_not_lt h4)) h1

/-- The scale-up target of `Autoscaler.scale_app` (source lines 175-179):
`math.ceil(app_instances * multiplier)`, replaced by `max_instances`
when it exceeds it. -/
def scaleUpTarget (cfg : Config) (app_instances : ℕ) : ℤ :=
  let t : ℤ := ⌈(app_instances : ℚ) * cfg.autoscale_multiplier⌉
  if t > cfg.max_instances then cfg.max_instances else t

/-- The scale-down target of `Autoscaler.scale_app` (source lines
180-184): `math.floor(app_instances / multiplier)`, replaced by
`min_instances` when it falls below it. -/
def scaleDownTarget (cfg : Config) (app_instances : ℕ) : ℤ :=
  let t : ℤ := ⌊(app_instances : ℚ) / cfg.autoscale_multiplier⌋
  if t < cfg.min_instances then cfg.min_instances else t

/-- `Autoscaler.scale_app` (source lines 170-196): computes the target
instance count for the requested direction and issues the mutating PUT
(returned as `some target`) exactly when the target differs from the
current instance count; otherwise no call is made (`none`). -/
def scale_app (cfg : Config) (app_instances : ℕ) (is_up : Bool) : Option ℤ :=
  let target :=
    if is_up then scaleUpTarget cfg app_instances
    else scaleDownTarget cfg app_instances
  if (app_instances : ℤ) ≠ target then some target else none

/-- Claim C4: a scale-up computes `ceil(current * multiplier)`, clamps
it to `max_instances` when it exceeds it, and issues the mutating call
exactly when the final target differs from the current count; when the
current count already equals `max_instances` and the multiplier is at
least 1, no call is issued. -/
theorem scale_up_clamped_call_iff (cfg : Config) (inst : ℕ) :
    (⌈(inst : ℚ) * cfg.autoscale_multiplier⌉ ≤ cfg.max_instances →
      scaleUpTarget cfg inst = ⌈(inst : ℚ) * cfg.autoscale_multiplier⌉) ∧
    (⌈(inst : ℚ) * cfg.autoscale_multiplier⌉ > cfg.max_instances →
      scaleUpTarget cfg inst = cfg.max_instances) ∧
    (scale_app cfg inst true = none ↔ (inst : ℤ) = scaleUpTarget cfg inst) ∧
    ((inst : ℤ) = cfg.max_instances → 1 ≤ cfg.autoscale_multiplier →
      scale_app cfg inst true = none) := by
  refine ⟨?_, ?_, ?_, ?_⟩
  · intro h
    simp only [scaleUpTarget, if_neg (not_lt.mpr h)]
  · intro h
    simp only [scaleUpTarget, if_pos h]
  · simp only [scale_app, if_true]
    by_cases h : (inst : ℤ) = scaleUpTarget cfg inst
    · simp [h]
    · simp [h]
  · intro hmax hm
    have hle : (inst : ℚ) ≤ (inst : ℚ) * cfg.autoscale_multiplier :=
      le_mul_of_one_le_right (by positivity) hm
    have hceil : (inst : ℤ) ≤ ⌈(inst : ℚ) * cfg.autoscale_multiplier⌉ := by
      calc (inst : ℤ) = ⌈((inst : ℕ) : ℚ)⌉ := by rw [Int.ceil_natCast]
        _ ≤ ⌈(inst : ℚ) * cfg.autoscale_multiplier⌉ := Int.ceil_le_ceil hle
    have htarget : scaleUpTarget cfg inst = (inst : ℤ) := by
      unfold scaleUpTarget
      rcases lt_or_le cfg.max_instances ⌈(inst : ℚ) * cfg.autoscale_multiplier⌉
        with h | h
      · rw [if_pos h, hmax]
      · rw [if_neg (not_lt.mpr h)]
        omega
    simp [scale_app, htarget]

/-- Witness for C4: with multiplier 1.5 and max 10 instances, a current
count of 10 produces no mutating call. -/
theorem scale_up_clamped_call_iff_witness :
    scale_app cfgScenario 10 true = none :=
  (scale_up_clamped_call_iff cfgScenario 10).2.2.2
    (by norm_num [cfgScenario]) (by norm_num [cfgScenario])

/-- The concrete configuration of the spec's scale-down scenario:
multiplier 2 and a minimum of 2 instances. -/
def cfgScaleDown : Config :=
  { trigger_mode := "cpu"
    autoscale_multiplier := 2
    max_instances := 10
    min_instances := 2
    scale_up_factor := 3
    cool_down_factor := 3
    marathon_app := "/app" }

/-- Claim C5: a scale-down computes `floor(current / multiplier)` and
replaces it by `min_instances` when it falls below it; in the concrete
case min 2, current 3, multiplier 2, the computed `floor(3/2) = 1` is
clamped to 2 and the mutating call is issued with target 2. -/
theorem scale_down_floor_clamped (cfg : Config) (inst : ℕ) :
    (scaleDownTarget cfg inst =
      max cfg.min_instances ⌊(inst : ℚ) / cfg.autoscale_multiplier⌋) ∧
    scale_app cfgScaleDown 3 false = some 2 := by
  constructor
  · unfold scaleDownTarget
    rcases lt_or_le ⌊(inst : ℚ) / cfg.autoscale_multiplier⌋ cfg.min_instances
      with h | h
    · rw [if_pos h]
      exact (max_eq_left h.le).symm
    · rw [if_neg (not_lt.mpr h)]
      exact (max_eq_right h).symm
  · norm_num [scale_app, scaleDownTarget, cfgScaleDown]

/-- Claim C10: when the current instance count is strictly below
`min_instances` and the multiplier is at least 1, the scale-down path
clamps the computed target up to `min_instances`, which differs from
the current count, so a mutating call is issued whose target exceeds
the current instance count. -/
theorem scale_down_can_increase (cfg : Config) (inst : ℕ)
    (hlt : (inst : ℤ) < cfg.min_instances) (hm : 1 ≤ cfg.autoscale_multiplier) :
    scale_app cfg inst false = some cfg.min_instances ∧
    (inst : ℤ) < cfg.min_instances := by
  refine ⟨?_, hlt⟩
  have hdiv : (inst : ℚ) / cfg.autoscale_multiplier ≤ (inst : ℚ) :=
    div_le_self (by positivity) hm
  have hfloor : ⌊(inst : ℚ) / cfg.autoscale_multiplier⌋ ≤ (inst : ℤ) := by
    calc ⌊(inst : ℚ) / cfg.autoscale_multiplier⌋ ≤ ⌊((inst : ℕ) : ℚ)⌋ :=
          Int.floor_le_floor hdiv
      _ = (inst : ℤ) := Int.floor_natCast inst
  have htarget : scaleDownTarget cfg inst = cfg.min_instances := by
    unfold scaleDownTarget
    exact if_pos (lt_of_le_of_lt hfloor hlt)
  simp [scale_app, htarget]
  omega

/-- Witness for C10: with a minimum of 2 instances and multiplier 2, a
current count of 1 yields a mutating call with target 2 (an increase). -/
theorem scale_down_can_increase_witness :
    scale_app cfgScaleDown 1 false = some cfgScaleDown.min_instances ∧
    ((1 : ℕ) : ℤ) < cfgScaleDown.min_instances :=
  scale_down_can_increase cfgScaleDown 1
    (by norm_num [cfgScaleDown]) (by norm_num [cfgScaleDown])

/-- One decision-engine evaluation of the spec's scale-up scenario:
thresholds 20 and 80, reported metric value 95. -/
def scenarioStep (s : HState) : Decision × HState :=
  autoscale cfgScenario 20 80 95 s

/-- Counterexample to claim C2: in the scenario (scale-up factor 3,
counters starting at 0, value 95 each cycle), the third consecutive
evaluation does not decide ScaleUp — the guard compares the counter
before incrementing it, so the third cycle still decides NoAction. -/
theorem scenario_third_cycle_not_scaleup :
    ((scenarioStep ((scenarioStep ((scenarioStep ⟨0, 0⟩).2)).2)).1 =
      Decision.ScaleUp) = False := by
  norm_num [scenarioStep, autoscale, autoscaleBranch, cfgScenario]
  decide

/-- Amended claim C2: in the scenario, cycles 1-3 decide NoAction with
`scale_up` counter 1, 2 then 3, and the fourth consecutive cycle with
value 95 decides ScaleUp; the scale-up target from 4 instances is
`ceil(4 * 1.5) = 6`. -/
theorem scenario_scaleup_on_fourth_cycle :
    scenarioStep ⟨0, 0⟩ = (Decision.NoAction, ⟨1, 0⟩) ∧
    scenarioStep ⟨1, 0⟩ = (Decision.NoAction, ⟨2, 0⟩) ∧
    scenarioStep ⟨2, 0⟩ = (Decision.NoAction, ⟨3, 0⟩) ∧
    scenarioStep ⟨3, 0⟩ = (Decision.ScaleUp, ⟨0, 0⟩) ∧
    scale_app cfgScenario 4 true = some 6 := by
  norm_num [scenarioStep, autoscale, autoscaleBranch, scale_app,
    scaleUpTarget, cfgScenario]

/-- The keys of `Autoscaler.SCALING_MODES` (source lines 32-35). -/
def SCALING_MODES : List String := ["sqs", "cpu"]

/-- Whether `SCALING_MODES.get(trigger_mode, None)` finds a scaling mode
(source line 291). -/
def knownMode (mode : String) : Bool :=
  SCALING_MODES.contains mode

/-- The environment-supplied inputs of one iteration of `Autoscaler.run`
(source lines 269-307): the marathon app listing, whether the target
app reported task data, its instance count, and the thresholds and
metric value the scaling mode would report. -/
structure CycleInput where
  apps : List String
  tasks_present : Bool
  app_instances : ℕ
  metric_min : ℚ
  metric_max : ℚ
  metric : ℚ
deriving Repr, DecidableEq

/-- The outcome of one iteration of `Autoscaler.run`: `fatal code` for
`sys.exit(code)`, `skipped s` for a `timer(); continue` that leaves the
counters at `s`, and `completed d s` for a cycle that ran the decision
engine with decision `d` and counters `s` afterwards. -/
inductive CycleOutcome
  | fatal (code : ℕ)
  | skipped (s : HState)
  | completed (d : Decision) (s : HState)
deriving Repr, DecidableEq

/-- One iteration of the `while True` loop of `Autoscaler.run` (source
lines 269-307), in source order: `get_all_apps` exits with code 1 on an
empty listing (line 137); a listing without the target app skips the
cycle (lines 276-279); missing task data skips the cycle (lines
285-287); an unknown scaling mode exits with code 1 (lines 291-294);
the sentinel metric -1.0 skips the cycle (lines 301-303); otherwise the
decision engine runs (line 306). -/
def runCycle (cfg : Config) (s : HState) (inp : CycleInput) : CycleOutcome :=
  if inp.apps.isEmpty then CycleOutcome.fatal 1
  else if cfg.marathon_app ∉ inp.apps then CycleOutcome.skipped s
  else if inp.tasks_present = false then CycleOutcome.skipped s
  else if knownMode cfg.trigger_mode = false then CycleOutcome.fatal 1
  else if inp.metric = -1 then CycleOutcome.skipped s
  else
    let r := autoscale cfg inp.metric_min inp.metric_max inp.metric s
    CycleOutcome.completed r.1 r.2

/-- Iterating `Autoscaler.run` over a finite list of cycle inputs:
`none` when some cycle exits the process, otherwise `some s` with the
counters after the last cycle. -/
def runCycles (cfg : Config) : HState → List CycleInput → Option HState
  | s, [] => some s
  | s, inp :: rest =>
    match runCycle cfg s inp with
    | CycleOutcome.fatal _ => none
    | CycleOutcome.skipped s2 => runCycles cfg s2 rest
    | CycleOutcome.completed _ s2 => runCycles cfg s2 rest

/-- A healthy cycle input: the listing contains the target app, task
data is present, and the metric 50 lies within the thresholds 20-80. -/
def inputOk : CycleInput :=
  { apps := ["/app"]
    tasks_present := true
    app_instances := 4
    metric_min := 20
    metric_max := 80
    metric := 50 }

/-- A cycle input whose app listing is empty. -/
def inputEmptyApps : CycleInput :=
  { apps := []
    tasks_present := true
    app_instances := 4
    metric_min := 20
    metric_max := 80
    metric := 50 }

/-- A cycle input whose non-empty app listing does not contain the
target app `/app`. -/
def inputAbsent : CycleInput :=
  { apps := ["/other"]
    tasks_present := true
    app_instances := 4
    metric_min := 20
    metric_max := 80
    metric := 50 }

/-- A cycle input on which the metric provider reports the sentinel
value -1.0. -/
def inputSentinel : CycleInput :=
  { apps := ["/app"]
    tasks_present := true
    app_instances := 4
    metric_min := 20
    metric_max := 80
    metric := -1 }

/-- Counterexample to claim C6: an empty app listing terminates the
process on a later cycle too — after a successful first cycle, a second
cycle whose listing is empty exits with code 1. -/
theorem empty_listing_second_cycle_fatal :
    runCycle cfgScenario ⟨0, 0⟩ inputOk =
      CycleOutcome.completed Decision.NoAction ⟨0, 0⟩ ∧
    runCycle cfgScenario ⟨0, 0⟩ inputEmptyApps = CycleOutcome.fatal 1 ∧
    runCycles cfgScenario ⟨0, 0⟩ [inputOk, inputEmptyApps] = none := by
  decide

/-- Amended claim C6: a listing containing no apps at all is fatal (exit
code 1) on every cycle, initial or later; a non-empty listing that does
not contain the target app makes the cycle skipped with the counters
unchanged, and the loop continues. -/
theorem empty_listing_always_fatal (cfg : Config) (s : HState) (inp : CycleInput) :
    (inp.apps = [] → runCycle cfg s inp = CycleOutcome.fatal 1) ∧
    (inp.apps ≠ [] → cfg.marathon_app ∉ inp.apps →
      runCycle cfg s inp = CycleOutcome.skipped s) := by
  constructor
  · intro h
    unfold runCycle
    rw [if_pos (by simp [h])]
  · intro h1 h2
    unfold runCycle
    rw [if_neg (by simp [List.isEmpty_iff, h1]), if_pos h2]

/-- Witness for C6 (amended): concrete cycles — an empty listing on the
given cycle is fatal, and a listing lacking the target app skips the
cycle leaving the counters at (1, 0). -/
theorem empty_listing_always_fatal_witness :
    runCycle cfgScenario ⟨0, 0⟩ inputEmptyApps = CycleOutcome.fatal 1 ∧
    runCycle cfgScenario ⟨1, 0⟩ inputAbsent = CycleOutcome.skipped ⟨1, 0⟩ :=
  ⟨(empty_listing_always_fatal cfgScenario ⟨0, 0⟩ inputEmptyApps).1 rfl,
   (empty_listing_always_fatal cfgScenario ⟨1, 0⟩ inputAbsent).2
     (by decide) (by decide)⟩

/-- Claim C7: a cycle that passes the listing, task and scaling-mode
checks but whose metric provider returns the sentinel -1.0 skips the
decision engine entirely: the outcome is a skip with the counters
unchanged, not a completed decision. -/
theorem sentinel_skips_decision (cfg : Config) (s : HState) (inp : CycleInput)
    (h1 : inp.apps ≠ []) (h2 : cfg.marathon_app ∈ inp.apps)
    (h3 : inp.tasks_present = true) (h4 : knownMode cfg.trigger_mode = true)
    (h5 : inp.metric = -1) :
    runCycle cfg s inp = CycleOutcome.skipped s := by
  unfold runCycle
  rw [if_neg (by simp [List.isEmpty_iff, h1]), if_neg (by simp [h2]),
    if_neg (by simp [h3]), if_neg (by simp [h4]), if_pos h5]

/-- Witness for C7: a concrete sentinel cycle under the scenario
configuration leaves the counters at (2, 0) and makes no decision. -/
theorem sentinel_skips_decision_witness :
    runCycle cfgScenario ⟨2, 0⟩ inputSentinel = CycleOutcome.skipped ⟨2, 0⟩ :=
  sentinel_skips_decision cfgScenario ⟨2, 0⟩ inputSentinel
    (by decide) (by decide) rfl (by decide) rfl

/-- A configuration whose trigger mode `mem` is not a key of
`SCALING_MODES`. -/
def cfgUnknownMode : Config :=
  { trigger_mode := "mem"
    autoscale_multiplier := 3/2
    max_instances := 10
    min_instances := 1
    scale_up_factor := 3
    cool_down_factor := 3
    marathon_app := "/app" }

/-- Counterexample to claim C8: with an unknown trigger mode the process
does not terminate at loop start — a first cycle in which the target
app is absent from the listing is skipped and completes (sleep,
continue), so the loop survives a full polling cycle. -/
theorem unknown_mode_cycle_completes :
    knownMode cfgUnknownMode.trigger_mode = false ∧
    runCycle cfgUnknownMode ⟨0, 0⟩ inputAbsent = CycleOutcome.skipped ⟨0, 0⟩ ∧
    runCycles cfgUnknownMode ⟨0, 0⟩ [inputAbsent] = some ⟨0, 0⟩ := by
  decide

/-- Amended claim C8: an unknown trigger mode is fatal with exit code 1
on the first cycle that finds the target app present with task data —
before the metric is consulted and before the decision engine runs;
cycles in which the app is absent or lacks task data are skipped
without terminating the process. -/
theorem unknown_mode_fatal_when_reached (cfg : Config) (s : HState)
    (inp : CycleInput) (h0 : knownMode cfg.trigger_mode = false)
    (h1 : inp.apps ≠ []) (h2 : cfg.marathon_app ∈ inp.apps)
    (h3 : inp.tasks_present = true) :
    runCycle cfg s inp = CycleOutcome.fatal 1 := by
  unfold runCycle
  rw [if_neg (by simp [List.isEmpty_iff, h1]), if_neg (by simp [h2]),
    if_neg (by simp [h3]), if_pos h0]

/-- Witness for C8 (amended): a concrete healthy cycle under the
unknown-mode configuration exits with code 1. -/
theorem unknown_mode_fatal_when_reached_witness :
    runCycle cfgUnknownMode ⟨0, 0⟩ inputOk = CycleOutcome.fatal 1 :=
  unknown_mode_fatal_when_reached cfgUnknownMode ⟨0, 0⟩ inputOk
    (by decide) (by decide) (by decide) rfl
